import Mathlib

/-!
Verification of the pzmapdzi2img stitching core.

This file gives a shallow embedding, in Lean 4, of the algorithmic core of
the repository (`map_image_generator`): the pyramid calculator
(`pyramid.py`), bounds calculator (`bounds.py`), compatibility validator,
level resolver and the multi-map / single-map stitchers (`stitcher.py`),
together with the tile loader's ordering behaviour (`tile_loader.py`).

Conventions of the embedding:
* Python `int` is modelled by `ℤ` (arbitrary precision in both).
* Python `//` (floor division) is modelled by `Int.fdiv`.
* The float `scale_factor = 0.5 ** zoom_out` is an exact dyadic rational,
  and the products it enters (`int * scale_factor`) are exact in IEEE
  doubles for all coordinates below 2^53, so the float arithmetic of the
  source is modelled exactly by `ℚ`.
* Python `round` (banker's rounding, ties to even) is `pyRound`; Python
  `int(...)` truncation toward zero on a nonnegative float is `pyTrunc`.
* The filesystem is abstracted: a map source carries its parsed
  `map_info.json` (`none` when the file is absent), its parsed layer
  `.dzi` descriptor, and the per-level tile-directory listing (`none`
  when the directory is absent).  Exceptions raised by the Python code
  are modelled with `Except StitchError`.
-/

/-- Error taxonomy, one constructor per structurally distinct raise site
of the embedded code. -/
inductive StitchError where
  /-- `FileNotFoundError` for a missing `map_info.json`. -/
  | notFound : StitchError
  /-- `ValueError` from `build_pyramid` on nonpositive dimensions. -/
  | invalidDimensions : StitchError
  /-- `ValueError` from `calculate_tiles_for_level` on nonpositive tile size. -/
  | invalidTileSize : StitchError
  /-- `ValueError("No map paths provided")` from `calculate_global_bounds`. -/
  | noMaps : StitchError
  /-- `ValueError` from `_calculate_map_levels` when the requested level
  exceeds the highest max level. -/
  | levelOutOfRange : StitchError
  /-- `ValueError("Maps incompatible: ...")` from `stitch_multi_map`. -/
  | incompatibleMaps : StitchError
  /-- `ValueError("Invalid level ...")` from `stitch_single_map`. -/
  | invalidLevel : StitchError
  /-- `ValueError("No tiles found ...")` from `stitch_single_map`. -/
  | noTiles : StitchError
  deriving DecidableEq, Repr

/-! ## Pyramid calculator (`pyramid.py`) -/

/-- The descending half of `build_pyramid`: the list
`[(w,h), (⌈w/2⌉,⌈h/2⌉), ..., (1,1)]` produced by the `while` loop of
`build_pyramid` before the final `reverse`.  The loop guard
`pyramid[-1] != (1, 1)` is, for positive inputs, the same as
`¬(w ≤ 1 ∧ h ≤ 1)`. -/
def pyramidDown (w h : ℕ) : List (ℕ × ℕ) :=
  if w ≤ 1 ∧ h ≤ 1 then [(w, h)]
  else (w, h) :: pyramidDown ((w + 1) / 2) ((h + 1) / 2)
termination_by w + h
decreasing_by omega

/-- Embeds `build_pyramid(width, height)`: raises `InvalidDimensions` when either
input is `≤ 0`; otherwise the ascending pyramid, level 0 first. -/
def build_pyramid (width height : ℤ) : Except StitchError (List (ℤ × ℤ)) :=
  if width ≤ 0 ∨ height ≤ 0 then .error .invalidDimensions
  else .ok (((pyramidDown width.toNat height.toNat).map
      (fun p => ((p.1 : ℤ), (p.2 : ℤ)))).reverse)

/-- Embeds `get_max_level(width, height) = len(build_pyramid(...)) - 1`,
propagating the `InvalidDimensions` failure of `build_pyramid`. -/
def get_max_level (width height : ℤ) : Except StitchError ℤ :=
  (build_pyramid width height).map (fun p => (p.length : ℤ) - 1)

/-- Embeds `calculate_tiles_for_level(level_width, level_height, tile_size)`:
`InvalidTileSize` when `tile_size ≤ 0`, else the ceiling-divided grid
shape, computed exactly as the source does with floor division. -/
def calculate_tiles_for_level (level_width level_height tile_size : ℤ) :
    Except StitchError (ℤ × ℤ) :=
  if tile_size ≤ 0 then .error .invalidTileSize
  else .ok ((level_width + tile_size - 1).fdiv tile_size,
            (level_height + tile_size - 1).fdiv tile_size)

deriving instance DecidableEq for Except

/-! ## Arithmetic helpers -/

/-- For a positive divisor, the Python idiom `(a + b - 1) // b` is the
ceiling of the exact quotient. -/
theorem fdiv_ceil_eq (a b : ℤ) (hb : 0 < b) :
    (a + b - 1).fdiv b = ⌈(a : ℚ) / (b : ℚ)⌉ := by
  have hqr := Int.fdiv_add_fmod (a + b - 1) b
  have hr0 := Int.fmod_nonneg' (a + b - 1) hb
  have hrb := Int.fmod_lt_of_pos (a + b - 1) hb
  have hbQ : (0 : ℚ) < (b : ℚ) := by exact_mod_cast hb
  symm
  rw [Int.ceil_eq_iff]
  refine ⟨?_, ?_⟩
  · rw [show (((a + b - 1).fdiv b : ℤ) : ℚ) - 1
        = (((a + b - 1).fdiv b - 1 : ℤ) : ℚ) by push_cast; ring,
      lt_div_iff₀ hbQ]
    have h : ((a + b - 1).fdiv b - 1) * b < a := by nlinarith [hqr, hr0]
    exact_mod_cast h
  · rw [div_le_iff₀ hbQ]
    have h : a ≤ (a + b - 1).fdiv b * b := by nlinarith [hqr, hrb]
    exact_mod_cast h

/-- Ceiling-halving of a natural number, seen in `ℚ`, is `(n + 1) / 2`. -/
theorem ceil_half_natCast (n : ℕ) :
    ⌈(n : ℚ) / (2 : ℚ)⌉ = (((n + 1) / 2 : ℕ) : ℤ) := by
  have h := fdiv_ceil_eq (n : ℤ) 2 (by norm_num)
  norm_num at h
  rw [← h, show ((n : ℤ) + 2 - 1) = ((n + 1 : ℕ) : ℤ) by push_cast; ring,
    show (2 : ℤ) = ((2 : ℕ) : ℤ) by norm_num, ← Int.ofNat_fdiv]

/-! ## Pyramid lemmas -/

theorem pyramidDown_ne_nil (w h : ℕ) : pyramidDown w h ≠ [] := by
  rw [pyramidDown]; split <;> simp

theorem pyramidDown_head (w h : ℕ) : (pyramidDown w h).head? = some (w, h) := by
  rw [pyramidDown]; split <;> simp

theorem pyramidDown_getLast (w h : ℕ) :
    1 ≤ w → 1 ≤ h → (pyramidDown w h).getLast? = some (1, 1) := by
  induction w, h using pyramidDown.induct with
  | case1 w h hle =>
    intro hw hh
    rw [pyramidDown, if_pos hle]
    have hw1 : w = 1 := by omega
    have hh1 : h = 1 := by omega
    subst hw1; subst hh1; rfl
  | case2 w h hgt ih =>
    intro hw hh
    rw [pyramidDown, if_neg hgt]
    obtain ⟨p, l', hpl⟩ : ∃ p l', pyramidDown ((w + 1) / 2) ((h + 1) / 2) = p :: l' := by
      cases e : pyramidDown ((w + 1) / 2) ((h + 1) / 2) with
      | nil => exact absurd e (pyramidDown_ne_nil _ _)
      | cons p l' => exact ⟨p, l', rfl⟩
    rw [hpl, List.getLast?_cons_cons, ← hpl]
    exact ih (by omega) (by omega)

theorem pyramidDown_mem_pos (w h : ℕ) :
    1 ≤ w → 1 ≤ h → ∀ p ∈ pyramidDown w h, 1 ≤ p.1 ∧ 1 ≤ p.2 := by
  induction w, h using pyramidDown.induct with
  | case1 w h hle =>
    intro hw hh p hp
    rw [pyramidDown, if_pos hle] at hp
    simp only [List.mem_singleton] at hp
    subst hp; exact ⟨hw, hh⟩
  | case2 w h hgt ih =>
    intro hw hh p hp
    rw [pyramidDown, if_neg hgt] at hp
    rcases List.mem_cons.mp hp with rfl | hp'
    · exact ⟨hw, hh⟩
    · exact ih (by omega) (by omega) p hp'

/-- Each entry of the descending pyramid is the ceiling-half of the one
before it. -/
theorem pyramidDown_chain (w h : ℕ) :
    (pyramidDown w h).Chain'
      (fun p q => q.1 = (p.1 + 1) / 2 ∧ q.2 = (p.2 + 1) / 2) := by
  induction w, h using pyramidDown.induct with
  | case1 w h hle =>
    rw [pyramidDown, if_pos hle]; exact List.chain'_singleton _
  | case2 w h hgt ih =>
    rw [pyramidDown, if_neg hgt]
    refine List.chain'_cons'.mpr ⟨?_, ih⟩
    intro q hq
    rw [pyramidDown_head] at hq
    simp only [Option.mem_def, Option.some_inj] at hq
    subst hq
    exact ⟨rfl, rfl⟩

/--
C4: for positive `w, h`, `build_pyramid` succeeds; its first entry is
`(1,1)`, its last entry is `(w,h)`, each level arises from the level
above by ceiling-halving, dimensions are monotonically non-decreasing in
the level index, and nonpositive input fails with `InvalidDimensions`.
-/
theorem buildPyramid_spec (w h : ℤ) :
    (0 < w → 0 < h → ∃ l, build_pyramid w h = .ok l ∧
      l.head? = some (1, 1) ∧
      l.getLast? = some (w, h) ∧
      l.Chain' (fun a b => a.1 = ⌈(b.1 : ℚ) / 2⌉ ∧ a.2 = ⌈(b.2 : ℚ) / 2⌉) ∧
      l.Chain' (fun a b => a.1 ≤ b.1 ∧ a.2 ≤ b.2)) ∧
    (w ≤ 0 ∨ h ≤ 0 → build_pyramid w h = .error .invalidDimensions) := by
  constructor
  · intro hw hh
    have hw' : 1 ≤ w.toNat := by omega
    have hh' : 1 ≤ h.toNat := by omega
    refine ⟨((pyramidDown w.toNat h.toNat).map
        (fun p => ((p.1 : ℤ), (p.2 : ℤ)))).reverse,
      by rw [build_pyramid, if_neg (by omega)], ?_, ?_, ?_, ?_⟩
    · rw [List.head?_reverse, List.getLast?_map,
        pyramidDown_getLast _ _ hw' hh']
      rfl
    · rw [List.getLast?_reverse, List.head?_map, pyramidDown_head]
      simp only [Option.map_some', Option.some_inj, Prod.mk.injEq]
      omega
    · rw [List.chain'_reverse, List.chain'_map]
      refine List.Chain'.imp ?_ (pyramidDown_chain w.toNat h.toNat)
      intro p q hpq
      refine ⟨?_, ?_⟩
      · show (q.1 : ℤ) = ⌈((p.1 : ℤ) : ℚ) / 2⌉
        push_cast
        rw [ceil_half_natCast p.1]
        exact_mod_cast hpq.1
      · show (q.2 : ℤ) = ⌈((p.2 : ℤ) : ℚ) / 2⌉
        push_cast
        rw [ceil_half_natCast p.2]
        exact_mod_cast hpq.2
    · rw [List.chain'_reverse, List.chain'_map]
      refine List.Chain'.imp ?_ (pyramidDown_chain w.toNat h.toNat)
      intro p q hpq
      have h1 : q.1 ≤ p.1 := by omega
      have h2 : q.2 ≤ p.2 := by omega
      exact ⟨show (q.1 : ℤ) ≤ (p.1 : ℤ) by exact_mod_cast h1,
        show (q.2 : ℤ) ≤ (p.2 : ℤ) by exact_mod_cast h2⟩
  · intro hwh
    rw [build_pyramid, if_pos (by omega)]

/-- Closed instantiation of `buildPyramid_spec` at `(3, 3)`. -/
theorem buildPyramid_spec_witness :
    ∃ l, build_pyramid 3 3 = .ok l ∧
      l.head? = some (1, 1) ∧
      l.getLast? = some (3, 3) ∧
      l.Chain' (fun a b => a.1 = ⌈(b.1 : ℚ) / 2⌉ ∧ a.2 = ⌈(b.2 : ℚ) / 2⌉) ∧
      l.Chain' (fun a b => a.1 ≤ b.1 ∧ a.2 ≤ b.2) :=
  (buildPyramid_spec 3 3).1 (by norm_num) (by norm_num)

/--
C9: for positive inputs `calculate_tiles_for_level` returns the
ceiling-divided grid shape; it fails with `InvalidTileSize` exactly when
`tile_size ≤ 0`; and the concrete values of the spec hold, including the
two `get_max_level` examples.
-/
theorem tilesForLevel_spec (w h ts : ℤ) :
    (0 < w → 0 < h → 0 < ts →
      calculate_tiles_for_level w h ts =
        .ok (⌈(w : ℚ) / (ts : ℚ)⌉, ⌈(h : ℚ) / (ts : ℚ)⌉)) ∧
    (calculate_tiles_for_level w h ts = .error .invalidTileSize ↔ ts ≤ 0) ∧
    calculate_tiles_for_level 19800 15900 300 = .ok (66, 53) ∧
    calculate_tiles_for_level 310 249 300 = .ok (2, 1) ∧
    calculate_tiles_for_level 155 125 300 = .ok (1, 1) ∧
    get_max_level 19800 15900 = .ok 15 ∧
    get_max_level 300 1200 = .ok 11 := by
  refine ⟨?_, ?_, by decide, by decide, by decide, ?_, ?_⟩
  · intro _ _ hts
    rw [calculate_tiles_for_level, if_neg (by omega),
      fdiv_ceil_eq _ _ hts, fdiv_ceil_eq _ _ hts]
  · constructor
    · intro he
      by_contra hts
      rw [calculate_tiles_for_level, if_neg hts] at he
      exact absurd he (by simp)
    · intro hts
      rw [calculate_tiles_for_level, if_pos hts]
  · simp [get_max_level, build_pyramid, pyramidDown, Except.map]
  · simp [get_max_level, build_pyramid, pyramidDown, Except.map]

/-- Closed instantiation of `tilesForLevel_spec` at `(19800, 15900, 300)`. -/
theorem tilesForLevel_spec_witness :
    calculate_tiles_for_level 19800 15900 300 =
      .ok (⌈(19800 : ℚ) / (300 : ℚ)⌉, ⌈(15900 : ℚ) / (300 : ℚ)⌉) :=
  (tilesForLevel_spec 19800 15900 300).1 (by norm_num) (by norm_num) (by norm_num)

/-! ## Data model (`map_info.py`, `dzi_parser.py`, `tile_loader.py`) -/

/-- The validated content of a `map_info.json` as returned by
`read_map_info`. -/
structure MapInfoData where
  x0 : ℤ
  y0 : ℤ
  w : ℤ
  h : ℤ
  cell_size : ℤ
  sqr : ℤ
  pz_version : String
  deriving DecidableEq, Repr

/-- The content of a parsed `layer{L}.dzi` descriptor (fields used by the
stitcher). -/
structure DziInfo where
  width : ℤ
  height : ℤ
  tile_size : ℤ
  deriving DecidableEq, Repr

/-- Abstract decoded tile image: its pixel dimensions plus a tag standing
for the pixel content. -/
structure ImageData where
  w : ℤ
  h : ℤ
  tag : ℕ
  deriving DecidableEq, Repr

/-- One entry of a level directory.  `coords` is the result of
`parse_tile_coords` on the filename: `none` when the name fails the
`{x}_{y}.{ext}` pattern, the extension is not an accepted raster format,
or the image fails to decode — all of which `load_tiles_for_level`
skips with a log message. -/
structure TileFile where
  coords : Option (ℤ × ℤ)
  image : ImageData
  deriving DecidableEq, Repr

/-- A loaded tile as produced by `load_tiles_for_level`. -/
structure Tile where
  x : ℤ
  y : ℤ
  image : ImageData
  deriving DecidableEq, Repr

/-- A map folder with the filesystem abstracted: the parsed
`map_info.json` (`none` when the file is missing), the parsed
`layer{L}.dzi` for the requested layer, and per level the tile-directory
listing in filesystem enumeration order (`none` when the level directory
is absent). -/
structure MapSource where
  info : Option MapInfoData
  dzi : DziInfo
  tiles : ℤ → Option (List TileFile)

/-- Embeds `read_map_info`: `FileNotFoundError` when `map_info.json` is absent,
otherwise the parsed record. -/
def read_map_info (m : MapSource) : Except StitchError MapInfoData :=
  match m.info with
  | none => .error .notFound
  | some i => .ok i

/-- The metadata-reading `for` loop shared by `calculate_global_bounds`
and `validate_map_compatibility`: reads each map's `map_info.json` in
order, propagating the first failure. -/
def readInfos : List MapSource → Except StitchError (List MapInfoData)
  | [] => .ok []
  | m :: rest =>
    match read_map_info m with
    | .error e => .error e
    | .ok i =>
      match readInfos rest with
      | .error e => .error e
      | .ok is => .ok (i :: is)

/-- Python `min` over a list of ints.  Callers only reach this with a
nonempty list (Python's `min([])` would raise). -/
def intMin : List ℤ → ℤ
  | [] => 0
  | a :: rest => rest.foldl min a

/-- Python `max` over a list of ints.  Callers only reach this with a
nonempty list (Python's `max([])` would raise). -/
def intMax : List ℤ → ℤ
  | [] => 0
  | a :: rest => rest.foldl max a

/-! ## Bounds calculator (`bounds.py`) -/

/-- One entry of the `maps` list returned by `calculate_global_bounds`. -/
structure MapPlacement where
  x0 : ℤ
  y0 : ℤ
  w : ℤ
  h : ℤ
  offset_x : ℤ
  offset_y : ℤ
  deriving DecidableEq, Repr

/-- The record returned by `calculate_global_bounds`. -/
structure GlobalBounds where
  min_x : ℤ
  min_y : ℤ
  max_x : ℤ
  max_y : ℤ
  width : ℤ
  height : ℤ
  maps : List MapPlacement
  deriving DecidableEq, Repr

/-- Embeds `calculate_global_bounds(map_paths, layer)`: `NoMaps` on an empty
input, `NotFound` if any map lacks its metadata, otherwise the union
bounding box with per-map offsets.  (The source's second emptiness check
`if not maps_data` is unreachable — `maps_data` has one entry per input
path — and is not modelled.) -/
def calculate_global_bounds (maps : List MapSource) :
    Except StitchError GlobalBounds :=
  if maps.isEmpty then .error .noMaps
  else
    match readInfos maps with
    | .error e => .error e
    | .ok infos =>
      let min_x := intMin (infos.map (·.x0))
      let min_y := intMin (infos.map (·.y0))
      let max_x := intMax (infos.map (fun i => i.x0 + i.w))
      let max_y := intMax (infos.map (fun i => i.y0 + i.h))
      .ok { min_x := min_x, min_y := min_y, max_x := max_x, max_y := max_y,
            width := max_x - min_x, height := max_y - min_y,
            maps := infos.map (fun i =>
              { x0 := i.x0, y0 := i.y0, w := i.w, h := i.h,
                offset_x := i.x0 - min_x, offset_y := i.y0 - min_y }) }

/-- Tags for the `warnings`/`errors` message strings built by
`validate_map_compatibility`, one per `append` site. -/
inductive CompatIssue where
  | noMapPaths : CompatIssue
  | sqrMismatch : CompatIssue
  | cellSizeMismatch : CompatIssue
  | versionMismatch : CompatIssue
  | nonB41Version : CompatIssue
  deriving DecidableEq, Repr

/-- The record returned by `validate_map_compatibility`. -/
structure CompatResult where
  compatible : Bool
  sqr : Option ℤ
  cell_size : Option ℤ
  pz_version : Option String
  warnings : List CompatIssue
  errors : List CompatIssue
  deriving DecidableEq, Repr

/-- Python `len(set(xs)) == 1`: all elements equal (and the list nonempty). -/
def allEqHead {α : Type} [DecidableEq α] : List α → Bool
  | [] => false
  | a :: rest => rest.all (fun x => x = a)

/-- The body of `validate_map_compatibility(map_paths)` once all
`map_info.json` records are loaded: set-cardinality checks on `sqr`,
`cell_size` and `pz_version`, error/warning lists in source append
order, and `compatible = (errors is empty)`.  The truthiness test
`if pz_version and pz_version != 'B41'` skips both `None` (version
mismatch) and the empty string. -/
def validateInfos (infos : List MapInfoData) : CompatResult :=
  let sqr_compatible := allEqHead (infos.map (·.sqr))
  let sqr := if sqr_compatible then (infos.map (·.sqr)).head? else none
  let cell_size_compatible := allEqHead (infos.map (·.cell_size))
  let cell_size :=
    if cell_size_compatible then (infos.map (·.cell_size)).head? else none
  let version_compatible := allEqHead (infos.map (·.pz_version))
  let pz_version :=
    if version_compatible then (infos.map (·.pz_version)).head? else none
  let errors :=
    (if sqr_compatible then [] else [CompatIssue.sqrMismatch]) ++
    (if cell_size_compatible then [] else [CompatIssue.cellSizeMismatch])
  let warnings :=
    (if version_compatible then [] else [CompatIssue.versionMismatch]) ++
    (match pz_version with
     | some v => if v ≠ "" ∧ v ≠ "B41" then [CompatIssue.nonB41Version] else []
     | none => [])
  { compatible := errors.isEmpty, sqr := sqr, cell_size := cell_size,
    pz_version := pz_version, warnings := warnings, errors := errors }

/-- Embeds `validate_map_compatibility(map_paths)`: never raises for readable
maps; an empty input yields `compatible=false` with a generic error. -/
def validate_map_compatibility (maps : List MapSource) :
    Except StitchError CompatResult :=
  if maps.isEmpty then
    .ok { compatible := false, sqr := none, cell_size := none,
          pz_version := none, warnings := [], errors := [.noMapPaths] }
  else
    match readInfos maps with
    | .error e => .error e
    | .ok infos => .ok (validateInfos infos)

/-! ## Multi-map level resolver (`stitcher.py`, `_calculate_map_levels`) -/

/-- Per-map entry of the `map_info` dict built by
`_calculate_map_levels`. -/
structure MapLevelInfo where
  max_level : ℤ
  actual_level : ℤ
  dzi : DziInfo
  deriving DecidableEq, Repr

/-- The dict returned by `_calculate_map_levels`. -/
structure MapLevels where
  highest_max : ℤ
  zoom_out : ℤ
  scale_factor : ℚ
  map_info : List MapLevelInfo
  deriving DecidableEq, Repr

/-- The dzi-reading `for` loop of `_calculate_map_levels`: each map's own
max level, in order, propagating `get_max_level` failures. -/
def readMaxLevels : List DziInfo → Except StitchError (List ℤ)
  | [] => .ok []
  | d :: rest =>
    match get_max_level d.width d.height with
    | .error e => .error e
    | .ok ml =>
      match readMaxLevels rest with
      | .error e => .error e
      | .ok mls => .ok (ml :: mls)

/-- Embeds `_calculate_map_levels(map_paths, layer, requested_level)`.  On an
empty input Python's `max(max_levels)` would raise `ValueError`,
modelled as `noMaps`; the claims only concern nonempty inputs.
`scale_factor = 0.5 ** zoom_out` is exact in floats and modelled in `ℚ`. -/
def calculate_map_levels (dzis : List DziInfo) (requested_level : ℤ) :
    Except StitchError MapLevels :=
  match readMaxLevels dzis with
  | .error e => .error e
  | .ok [] => .error .noMaps
  | .ok (m :: ms) =>
    let highest_max := intMax (m :: ms)
    let zoom_out := highest_max - requested_level
    if zoom_out < 0 then .error .levelOutOfRange
    else
      .ok { highest_max := highest_max, zoom_out := zoom_out,
            scale_factor := (1 / 2 : ℚ) ^ zoom_out.toNat,
            map_info := (dzis.zip (m :: ms)).map (fun p =>
              { max_level := p.2, actual_level := max 0 (p.2 - zoom_out),
                dzi := p.1 }) }

/-! ## Fold lemmas for Python `min`/`max` -/

theorem le_foldl_max (l : List ℤ) : ∀ a : ℤ, a ≤ l.foldl max a := by
  induction l with
  | nil => intro a; exact le_refl a
  | cons b t ih => intro a; exact le_trans (le_max_left a b) (ih (max a b))

theorem mem_le_foldl_max (l : List ℤ) : ∀ a x : ℤ, x ∈ l → x ≤ l.foldl max a := by
  induction l with
  | nil => intro a x hx; cases hx
  | cons b t ih =>
    intro a x hx
    rcases List.mem_cons.mp hx with rfl | hx'
    · exact le_trans (le_max_right a x) (le_foldl_max t (max a x))
    · exact ih (max a b) x hx'

theorem foldl_max_choice (l : List ℤ) :
    ∀ a : ℤ, l.foldl max a = a ∨ l.foldl max a ∈ l := by
  induction l with
  | nil => intro a; left; rfl
  | cons b t ih =>
    intro a
    rw [List.foldl_cons]
    rcases ih (max a b) with h | h
    · rcases max_choice a b with hab | hab
      · left; rw [h, hab]
      · right; rw [h, hab]; exact List.mem_cons_self b t
    · right; exact List.mem_cons_of_mem b h

theorem foldl_min_le (l : List ℤ) : ∀ a : ℤ, l.foldl min a ≤ a := by
  induction l with
  | nil => intro a; exact le_refl a
  | cons b t ih => intro a; exact le_trans (ih (min a b)) (min_le_left a b)

theorem foldl_min_le_mem (l : List ℤ) : ∀ a x : ℤ, x ∈ l → l.foldl min a ≤ x := by
  induction l with
  | nil => intro a x hx; cases hx
  | cons b t ih =>
    intro a x hx
    rcases List.mem_cons.mp hx with rfl | hx'
    · exact le_trans (foldl_min_le t (min a x)) (min_le_right a x)
    · exact ih (min a b) x hx'

theorem foldl_min_choice (l : List ℤ) :
    ∀ a : ℤ, l.foldl min a = a ∨ l.foldl min a ∈ l := by
  induction l with
  | nil => intro a; left; rfl
  | cons b t ih =>
    intro a
    rw [List.foldl_cons]
    rcases ih (min a b) with h | h
    · rcases min_choice a b with hab | hab
      · left; rw [h, hab]
      · right; rw [h, hab]; exact List.mem_cons_self b t
    · right; exact List.mem_cons_of_mem b h

theorem intMax_mem (l : List ℤ) (h : l ≠ []) : intMax l ∈ l := by
  cases l with
  | nil => exact absurd rfl h
  | cons a t =>
    rcases foldl_max_choice t a with h' | h'
    · rw [intMax, h']; exact List.mem_cons_self a t
    · rw [intMax]; exact List.mem_cons_of_mem a h'

theorem le_intMax (l : List ℤ) (x : ℤ) (hx : x ∈ l) : x ≤ intMax l := by
  cases l with
  | nil => cases hx
  | cons a t =>
    rcases List.mem_cons.mp hx with rfl | hx'
    · exact le_foldl_max t x
    · exact mem_le_foldl_max t a x hx'

theorem intMin_mem (l : List ℤ) (h : l ≠ []) : intMin l ∈ l := by
  cases l with
  | nil => exact absurd rfl h
  | cons a t =>
    rcases foldl_min_choice t a with h' | h'
    · rw [intMin, h']; exact List.mem_cons_self a t
    · rw [intMin]; exact List.mem_cons_of_mem a h'

theorem intMin_le (l : List ℤ) (x : ℤ) (hx : x ∈ l) : intMin l ≤ x := by
  cases l with
  | nil => cases hx
  | cons a t =>
    rcases List.mem_cons.mp hx with rfl | hx'
    · exact foldl_min_le t x
    · exact foldl_min_le_mem t a x hx'

theorem readInfos_length :
    ∀ (ms : List MapSource) (is : List MapInfoData),
      readInfos ms = .ok is → is.length = ms.length := by
  intro ms
  induction ms with
  | nil => intro is h; cases h; rfl
  | cons m rest ih =>
    intro is h
    rw [readInfos] at h
    cases hm : read_map_info m with
    | error e => rw [hm] at h; cases h
    | ok i =>
      rw [hm] at h
      cases hr : readInfos rest with
      | error e => rw [hr] at h; cases h
      | ok is' => rw [hr] at h; cases h; simp [ih is' hr]

theorem readMaxLevels_length :
    ∀ (ds : List DziInfo) (ls : List ℤ),
      readMaxLevels ds = .ok ls → ls.length = ds.length := by
  intro ds
  induction ds with
  | nil => intro ls h; cases h; rfl
  | cons d rest ih =>
    intro ls h
    rw [readMaxLevels] at h
    cases hd : get_max_level d.width d.height with
    | error e => rw [hd] at h; cases h
    | ok ml =>
      rw [hd] at h
      cases hr : readMaxLevels rest with
      | error e => rw [hr] at h; cases h
      | ok mls => rw [hr] at h; cases h; simp [ih mls hr]

/-! ## C5: global bounds -/

/-- The first map of the spec's bounds example:
`{x0:-100, y0:-100, w:200, h:200}`. -/
def exMapA : MapSource :=
  { info := some { x0 := -100, y0 := -100, w := 200, h := 200,
                   cell_size := 300, sqr := 1, pz_version := "B41" },
    dzi := { width := 200, height := 200, tile_size := 300 },
    tiles := fun _ => none }

/-- The second map of the spec's bounds example:
`{x0:0, y0:0, w:100, h:100}`. -/
def exMapB : MapSource :=
  { info := some { x0 := 0, y0 := 0, w := 100, h := 100,
                   cell_size := 300, sqr := 1, pz_version := "B41" },
    dzi := { width := 100, height := 100, tile_size := 300 },
    tiles := fun _ => none }

/--
C5: for a nonempty list of maps whose metadata all reads successfully,
`calculate_global_bounds` returns the union bounding box — `min_x`/`min_y`
are the least origins, `max_x`/`max_y` the greatest extents, width/height
their differences, and each map's offset is its origin minus the minimum
— and it fails with `NoMaps` on an empty input.  The spec's two-map
example evaluates as stated.
-/
theorem calculateGlobalBounds_spec (maps : List MapSource)
    (infos : List MapInfoData) (hne : maps ≠ [])
    (hinfos : readInfos maps = .ok infos) :
    (∃ gb, calculate_global_bounds maps = .ok gb ∧
      (gb.min_x ∈ infos.map (fun i => i.x0) ∧ ∀ i ∈ infos, gb.min_x ≤ i.x0) ∧
      (gb.min_y ∈ infos.map (fun i => i.y0) ∧ ∀ i ∈ infos, gb.min_y ≤ i.y0) ∧
      (gb.max_x ∈ infos.map (fun i => i.x0 + i.w) ∧
        ∀ i ∈ infos, i.x0 + i.w ≤ gb.max_x) ∧
      (gb.max_y ∈ infos.map (fun i => i.y0 + i.h) ∧
        ∀ i ∈ infos, i.y0 + i.h ≤ gb.max_y) ∧
      gb.width = gb.max_x - gb.min_x ∧
      gb.height = gb.max_y - gb.min_y ∧
      gb.maps = infos.map (fun i =>
        { x0 := i.x0, y0 := i.y0, w := i.w, h := i.h,
          offset_x := i.x0 - gb.min_x, offset_y := i.y0 - gb.min_y })) ∧
    calculate_global_bounds [] = .error .noMaps ∧
    calculate_global_bounds [exMapA, exMapB] = .ok
      { min_x := -100, min_y := -100, max_x := 100, max_y := 100,
        width := 200, height := 200,
        maps := [{ x0 := -100, y0 := -100, w := 200, h := 200,
                   offset_x := 0, offset_y := 0 },
                 { x0 := 0, y0 := 0, w := 100, h := 100,
                   offset_x := 100, offset_y := 100 }] } := by
  have hlen := readInfos_length maps infos hinfos
  have hinfne : infos ≠ [] := by
    intro h
    subst h
    exact hne (List.length_eq_zero.mp hlen.symm)
  refine ⟨?_, by decide, by decide⟩
  rw [calculate_global_bounds, if_neg (by simp [hne]), hinfos]
  refine ⟨_, rfl, ?_, ?_, ?_, ?_, rfl, rfl, rfl⟩
  · exact ⟨intMin_mem _ (by simp [hinfne]),
      fun i hi => intMin_le _ _ (List.mem_map_of_mem _ hi)⟩
  · exact ⟨intMin_mem _ (by simp [hinfne]),
      fun i hi => intMin_le _ _ (List.mem_map_of_mem _ hi)⟩
  · exact ⟨intMax_mem _ (by simp [hinfne]),
      fun i hi => le_intMax _ _ (List.mem_map_of_mem _ hi)⟩
  · exact ⟨intMax_mem _ (by simp [hinfne]),
      fun i hi => le_intMax _ _ (List.mem_map_of_mem _ hi)⟩

/-- The parsed metadata of `exMapA`. -/
def exInfoA : MapInfoData :=
  { x0 := -100, y0 := -100, w := 200, h := 200,
    cell_size := 300, sqr := 1, pz_version := "B41" }

/-- The parsed metadata of `exMapB`. -/
def exInfoB : MapInfoData :=
  { x0 := 0, y0 := 0, w := 100, h := 100,
    cell_size := 300, sqr := 1, pz_version := "B41" }

/-- Closed instantiation of `calculateGlobalBounds_spec` at the spec's
two example maps. -/
theorem calculateGlobalBounds_spec_witness :
    (∃ gb, calculate_global_bounds [exMapA, exMapB] = .ok gb ∧
      (gb.min_x ∈ [exInfoA, exInfoB].map (fun i => i.x0) ∧
        ∀ i ∈ [exInfoA, exInfoB], gb.min_x ≤ i.x0) ∧
      (gb.min_y ∈ [exInfoA, exInfoB].map (fun i => i.y0) ∧
        ∀ i ∈ [exInfoA, exInfoB], gb.min_y ≤ i.y0) ∧
      (gb.max_x ∈ [exInfoA, exInfoB].map (fun i => i.x0 + i.w) ∧
        ∀ i ∈ [exInfoA, exInfoB], i.x0 + i.w ≤ gb.max_x) ∧
      (gb.max_y ∈ [exInfoA, exInfoB].map (fun i => i.y0 + i.h) ∧
        ∀ i ∈ [exInfoA, exInfoB], i.y0 + i.h ≤ gb.max_y) ∧
      gb.width = gb.max_x - gb.min_x ∧
      gb.height = gb.max_y - gb.min_y ∧
      gb.maps = [exInfoA, exInfoB].map (fun i =>
        { x0 := i.x0, y0 := i.y0, w := i.w, h := i.h,
          offset_x := i.x0 - gb.min_x, offset_y := i.y0 - gb.min_y })) ∧
    calculate_global_bounds [] = .error .noMaps ∧
    calculate_global_bounds [exMapA, exMapB] = .ok
      { min_x := -100, min_y := -100, max_x := 100, max_y := 100,
        width := 200, height := 200,
        maps := [{ x0 := -100, y0 := -100, w := 200, h := 200,
                   offset_x := 0, offset_y := 0 },
                 { x0 := 0, y0 := 0, w := 100, h := 100,
                   offset_x := 100, offset_y := 100 }] } :=
  calculateGlobalBounds_spec [exMapA, exMapB] [exInfoA, exInfoB]
    (by simp) (by rfl)

/-! ## C1: level resolution -/

/-- Python `0.5 ** z` (for `z ≥ 0`) equals `2 ^ (-z)`. -/
theorem half_pow_eq_zpow_neg (z : ℤ) (hz : 0 ≤ z) :
    (1 / 2 : ℚ) ^ z.toNat = (2 : ℚ) ^ (-z) := by
  rw [one_div, inv_pow, ← zpow_natCast (2 : ℚ) z.toNat,
    Int.toNat_of_nonneg hz, ← zpow_neg]

/-- The DZI descriptor of the spec's map `A` (max level 15). -/
def exDziA : DziInfo := { width := 19800, height := 15900, tile_size := 300 }

/-- The DZI descriptor of the spec's map `B` (max level 11). -/
def exDziB : DziInfo := { width := 300, height := 1200, tile_size := 300 }

/--
C1: for a nonempty list of map descriptors whose max levels resolve to
`mls`, `_calculate_map_levels` fails with `LevelOutOfRange` exactly when
`zoomOut = highestMax - requestedLevel` is negative; `highestMax` is the
maximum of the per-map max levels; and on success the result carries
`zoomOut`, `scaleFactor = 2^(-zoomOut)` and per-map
`actualLevel = max 0 (mapMaxLevel - zoomOut)`.  The spec's example with
max levels `{15, 11}` at requested level 15 evaluates as stated.
-/
theorem resolveLevels_spec (dzis : List DziInfo) (L : ℤ) (mls : List ℤ)
    (hne : dzis ≠ []) (hmls : readMaxLevels dzis = .ok mls) :
    ((calculate_map_levels dzis L = .error .levelOutOfRange) ↔
      intMax mls - L < 0) ∧
    (intMax mls ∈ mls ∧ ∀ x ∈ mls, x ≤ intMax mls) ∧
    (0 ≤ intMax mls - L → calculate_map_levels dzis L = .ok
      { highest_max := intMax mls,
        zoom_out := intMax mls - L,
        scale_factor := (2 : ℚ) ^ (-(intMax mls - L)),
        map_info := (dzis.zip mls).map (fun p =>
          { max_level := p.2,
            actual_level := max 0 (p.2 - (intMax mls - L)),
            dzi := p.1 }) }) ∧
    calculate_map_levels [exDziA, exDziB] 15 = .ok
      { highest_max := 15, zoom_out := 0, scale_factor := 1,
        map_info := [
          { max_level := 15, actual_level := 15, dzi := exDziA },
          { max_level := 11, actual_level := 11, dzi := exDziB }] } := by
  have hlen := readMaxLevels_length dzis mls hmls
  have hmlne : mls ≠ [] := by
    intro h
    subst h
    exact hne (List.length_eq_zero.mp hlen.symm)
  obtain ⟨m, ms, rfl⟩ : ∃ m ms, mls = m :: ms := by
    cases mls with
    | nil => exact absurd rfl hmlne
    | cons m ms => exact ⟨m, ms, rfl⟩
  refine ⟨?_, ⟨intMax_mem _ hmlne, fun x hx => le_intMax _ x hx⟩, ?_, ?_⟩
  · simp only [calculate_map_levels, hmls]
    by_cases hz : intMax (m :: ms) - L < 0
    · simp only [if_pos hz]
      simp [hz]
    · simp only [if_neg hz]
      simp [hz]
  · intro hz
    simp only [calculate_map_levels, hmls]
    rw [if_neg (show ¬ intMax (m :: ms) - L < 0 by omega),
      half_pow_eq_zpow_neg _ hz]
  · simp [calculate_map_levels, readMaxLevels, get_max_level, build_pyramid,
      pyramidDown, Except.map, exDziA, exDziB, intMax]

/-- Closed instantiation of `resolveLevels_spec` at the spec's example
descriptors, with max levels `[15, 11]` and requested level 15. -/
theorem resolveLevels_spec_witness :
    ((calculate_map_levels [exDziA, exDziB] 15 = .error .levelOutOfRange) ↔
      intMax [15, 11] - 15 < 0) ∧
    (intMax [15, 11] ∈ [(15 : ℤ), 11] ∧ ∀ x ∈ [(15 : ℤ), 11], x ≤ intMax [15, 11]) ∧
    (0 ≤ intMax [15, 11] - 15 → calculate_map_levels [exDziA, exDziB] 15 = .ok
      { highest_max := intMax [15, 11],
        zoom_out := intMax [15, 11] - 15,
        scale_factor := (2 : ℚ) ^ (-(intMax [15, 11] - 15)),
        map_info := ([exDziA, exDziB].zip [15, 11]).map (fun p =>
          { max_level := p.2,
            actual_level := max 0 (p.2 - (intMax [15, 11] - 15)),
            dzi := p.1 }) }) ∧
    calculate_map_levels [exDziA, exDziB] 15 = .ok
      { highest_max := 15, zoom_out := 0, scale_factor := 1,
        map_info := [
          { max_level := 15, actual_level := 15, dzi := exDziA },
          { max_level := 11, actual_level := 11, dzi := exDziB }] } :=
  resolveLevels_spec [exDziA, exDziB] 15 [15, 11] (by simp)
    (by simp [readMaxLevels, get_max_level, build_pyramid, pyramidDown,
      Except.map, exDziA, exDziB])

/-! ## Tile loader (`tile_loader.py`) -/

/-- The sort key comparison used by
`tiles.sort(key=lambda t: (t['y'], t['x']))`: lexicographic `(y, x)`. -/
def tileLE (t1 t2 : Tile) : Bool :=
  decide (t1.y < t2.y ∨ (t1.y = t2.y ∧ t1.x ≤ t2.x))

/-- The scan loop of `load_tiles_for_level`: keeps the files whose names
parse as tile coordinates (and decode), in directory order. -/
def parseTiles (files : List TileFile) : List Tile :=
  files.filterMap (fun f =>
    f.coords.map (fun c => { x := c.1, y := c.2, image := f.image }))

/-- Embeds `load_tiles_for_level(map_path, layer, level)`: an absent level
directory yields `[]` (with a warning, not an error); otherwise the
parsed tiles, stably sorted by `(y, x)` ascending.  Python's `list.sort`
is a stable sort, modelled by `List.mergeSort`. -/
def load_tiles_for_level (m : MapSource) (level : ℤ) : List Tile :=
  match m.tiles level with
  | none => []
  | some files => (parseTiles files).mergeSort tileLE

/-- The record returned by `get_tile_bounds`. -/
structure TileBounds where
  min_x : ℤ
  min_y : ℤ
  max_x : ℤ
  max_y : ℤ
  cols : ℤ
  rows : ℤ
  deriving DecidableEq, Repr

/-- Embeds `get_tile_bounds(tiles)`: all-zero record on an empty list, else the
min/max tile coordinates and grid shape. -/
def get_tile_bounds (tiles : List Tile) : TileBounds :=
  match tiles with
  | [] => { min_x := 0, min_y := 0, max_x := 0, max_y := 0, cols := 0, rows := 0 }
  | _ :: _ =>
    let xs := tiles.map (fun t => t.x)
    let ys := tiles.map (fun t => t.y)
    { min_x := intMin xs, min_y := intMin ys,
      max_x := intMax xs, max_y := intMax ys,
      cols := intMax xs - intMin xs + 1, rows := intMax ys - intMin ys + 1 }

/-! ## Rounding (`round`, `int`) -/

/-- Python 3 `round` on an exact dyadic value: nearest integer, ties to
even.  (All values rounded by the stitcher are integers times
`0.5 ** zoom_out`, exact in IEEE doubles below `2^53`.) -/
def pyRound (q : ℚ) : ℤ :=
  let f := ⌊q⌋
  if q - f < 1 / 2 then f
  else if 1 / 2 < q - f then f + 1
  else if f % 2 = 0 then f else f + 1

/-- Python `int()` on a float: truncation toward zero. -/
def pyTrunc (q : ℚ) : ℤ := q.num.tdiv (q.den : ℤ)

/-! ## Canvas compositor (`stitcher.py`) -/

/-- One `alpha_composite` call onto the shared canvas: position, the
pasted image's pixel size (after any resize), and its source content. -/
structure Placement where
  x : ℤ
  y : ℤ
  w : ℤ
  h : ℤ
  image : ImageData
  deriving DecidableEq, Repr

/-- Embeds `_is_within_canvas(x, y, tile_size, canvas_size)`. -/
def is_within_canvas (x y tile_w tile_h canvas_w canvas_h : ℤ) : Bool :=
  if x ≥ canvas_w ∨ y ≥ canvas_h then false
  else if x + tile_w ≤ 0 ∨ y + tile_h ≤ 0 then false
  else true

/-- The per-tile body of the compositing loop of
`_stitch_map_onto_canvas`: the composite call performed for the tile, or
`none` when the tile is skipped as fully off-canvas. -/
def compositeTile (world_x world_y tile_size level_scale_up min_x min_y : ℤ)
    (scale_factor : ℚ) (canvas_w canvas_h : ℤ) (t : Tile) : Option Placement :=
  let tile_full_x := world_x + t.x * tile_size * level_scale_up
  let tile_full_y := world_y + t.y * tile_size * level_scale_up
  let cx := pyRound (((tile_full_x - min_x : ℤ) : ℚ) * scale_factor)
  let cy := pyRound (((tile_full_y - min_y : ℤ) : ℚ) * scale_factor)
  let cw := pyRound (((t.image.w * level_scale_up : ℤ) : ℚ) * scale_factor)
  let ch := pyRound (((t.image.h * level_scale_up : ℤ) : ℚ) * scale_factor)
  -- `tile_img = tile_img.resize((max(1, canvas_w), max(1, canvas_h)))`
  -- when the natural size disagrees with the computed one
  let pw := if (t.image.w, t.image.h) = (cw, ch) then t.image.w else max 1 cw
  let ph := if (t.image.w, t.image.h) = (cw, ch) then t.image.h else max 1 ch
  if is_within_canvas cx cy pw ph canvas_w canvas_h then
    some { x := cx, y := cy, w := pw, h := ph, image := t.image }
  else none

/-- Embeds `_stitch_map_onto_canvas`: load the map's tiles at its actual level;
with no tiles the map is skipped (non-fatal, `ok []`); otherwise read
`map_info.json` (world position is `(-x0, -y0)`), set
`level_scale_up = 2 ** (max_level - actual_level)` (the exponent is
nonnegative for levels produced by `_calculate_map_levels`), and return
the composite calls performed, in tile order. -/
def stitch_map_onto_canvas (m : MapSource) (info : MapLevelInfo)
    (bounds : GlobalBounds) (scale_factor : ℚ) (canvas_w canvas_h : ℤ) :
    Except StitchError (List Placement) :=
  let tiles := load_tiles_for_level m info.actual_level
  if tiles.isEmpty then .ok []
  else
    match read_map_info m with
    | .error e => .error e
    | .ok mi =>
      let world_x := -mi.x0
      let world_y := -mi.y0
      let level_scale_up := (2 : ℤ) ^ (info.max_level - info.actual_level).toNat
      .ok (tiles.filterMap
        (compositeTile world_x world_y info.dzi.tile_size level_scale_up
          bounds.min_x bounds.min_y scale_factor canvas_w canvas_h))

/-- The map loop of `stitch_multi_map`: maps processed sequentially in
caller order, later maps composited after (hence over) earlier ones. -/
def stitchMapsLoop (bounds : GlobalBounds) (scale_factor : ℚ)
    (canvas_w canvas_h : ℤ) :
    List (MapSource × MapLevelInfo) → Except StitchError (List Placement)
  | [] => .ok []
  | (m, info) :: rest =>
    match stitch_map_onto_canvas m info bounds scale_factor canvas_w canvas_h with
    | .error e => .error e
    | .ok ps =>
      match stitchMapsLoop bounds scale_factor canvas_w canvas_h rest with
      | .error e => .error e
      | .ok ps' => .ok (ps ++ ps')

/-- Everything `stitch_multi_map` does before `Image.new`: compatibility
validation, global bounds, per-map levels, and the canvas size
`int(bounds_extent * scale_factor)`, in source statement order.
Map-folder existence checks are part of the filesystem abstraction. -/
structure StitchPrep where
  compat : CompatResult
  bounds : GlobalBounds
  levels : MapLevels
  canvas_w : ℤ
  canvas_h : ℤ
  deriving DecidableEq, Repr

def stitch_multi_map_prepare (maps : List MapSource) (level : ℤ) :
    Except StitchError StitchPrep :=
  match validate_map_compatibility maps with
  | .error e => .error e
  | .ok compat =>
    if ¬ compat.compatible then .error .incompatibleMaps
    else
      match calculate_global_bounds maps with
      | .error e => .error e
      | .ok bounds =>
        match calculate_map_levels (maps.map (fun m => m.dzi)) level with
        | .error e => .error e
        | .ok levels =>
          .ok { compat := compat, bounds := bounds, levels := levels,
                canvas_w := pyTrunc ((bounds.width : ℚ) * levels.scale_factor),
                canvas_h := pyTrunc ((bounds.height : ℚ) * levels.scale_factor) }

/-- The externally visible effects of a stitch run. -/
inductive StitchEvent where
  | allocCanvas (w h : ℤ) : StitchEvent
  | writeFile : StitchEvent
  deriving DecidableEq, Repr

/-- The final stitched output: canvas size and the composite calls in
program order. -/
structure StitchResult where
  canvas_w : ℤ
  canvas_h : ℤ
  placements : List Placement
  deriving DecidableEq, Repr

/-- Embeds `stitch_multi_map`, instrumented with its externally visible effects:
`Image.new` (canvas allocation) and `_save_image` (output-file write),
in program order.  On an exception the events already performed are kept
and no result is produced. -/
def stitch_multi_map_run (maps : List MapSource) (level : ℤ) :
    List StitchEvent × Except StitchError StitchResult :=
  match stitch_multi_map_prepare maps level with
  | .error e => ([], .error e)
  | .ok prep =>
    match stitchMapsLoop prep.bounds prep.levels.scale_factor
        prep.canvas_w prep.canvas_h (maps.zip prep.levels.map_info) with
    | .error e => ([.allocCanvas prep.canvas_w prep.canvas_h], .error e)
    | .ok ps =>
      ([.allocCanvas prep.canvas_w prep.canvas_h, .writeFile],
       .ok { canvas_w := prep.canvas_w, canvas_h := prep.canvas_h,
             placements := ps })

/-- Embeds `stitch_multi_map(map_paths, layer, level, output_path)`: the value
of the run (the saved output when no exception occurred). -/
def stitch_multi_map (maps : List MapSource) (level : ℤ) :
    Except StitchError StitchResult :=
  (stitch_multi_map_run maps level).2

/-- Embeds `stitch_single_map(map_path, layer, level, output_path)`: validates
the level against the map's own pyramid, loads tiles and raises
`ValueError("No tiles found ...")` when there are none; otherwise sizes
the output from the tile bounds and the largest rightmost/bottommost
tile, and pastes each tile at `(x * tile_size, y * tile_size)`. -/
def stitch_single_map (m : MapSource) (level : ℤ) :
    Except StitchError StitchResult :=
  let tile_size := m.dzi.tile_size
  match build_pyramid m.dzi.width m.dzi.height with
  | .error e => .error e
  | .ok pyramid =>
    let max_level := (pyramid.length : ℤ) - 1
    if ¬ (0 ≤ level ∧ level ≤ max_level) then .error .invalidLevel
    else
      let tiles := load_tiles_for_level m level
      if tiles.isEmpty then .error .noTiles
      else
        let bounds := get_tile_bounds tiles
        let rightmost := tiles.filter (fun t => t.x = bounds.max_x)
        let bottommost := tiles.filter (fun t => t.y = bounds.max_y)
        let rightmost_width := intMax (rightmost.map (fun t => t.image.w))
        let bottommost_height := intMax (bottommost.map (fun t => t.image.h))
        let output_width :=
          bounds.min_x * tile_size + (bounds.cols - 1) * tile_size + rightmost_width
        let output_height :=
          bounds.min_y * tile_size + (bounds.rows - 1) * tile_size + bottommost_height
        .ok { canvas_w := output_width, canvas_h := output_height,
              placements := tiles.map (fun t =>
                { x := t.x * tile_size, y := t.y * tile_size,
                  w := t.image.w, h := t.image.h, image := t.image }) }

/-! ## Pipeline helper lemmas -/

/-- Field view of a successful preparation stage: it embeds the results
of `validate`→`bounds`→`levels` and the truncated canvas size. -/
theorem prepare_fields (maps : List MapSource) (level : ℤ) (prep : StitchPrep)
    (hp : stitch_multi_map_prepare maps level = .ok prep) :
    calculate_global_bounds maps = .ok prep.bounds ∧
    calculate_map_levels (maps.map (fun m => m.dzi)) level = .ok prep.levels ∧
    prep.canvas_w = pyTrunc ((prep.bounds.width : ℚ) * prep.levels.scale_factor) ∧
    prep.canvas_h = pyTrunc ((prep.bounds.height : ℚ) * prep.levels.scale_factor) := by
  cases hv : validate_map_compatibility maps with
  | error e => simp [stitch_multi_map_prepare, hv] at hp
  | ok compat =>
    by_cases hc : compat.compatible
    · cases hbnd : calculate_global_bounds maps with
      | error e => simp [stitch_multi_map_prepare, hv, hbnd, hc] at hp
      | ok b0 =>
        cases hlvl : calculate_map_levels (maps.map (fun m => m.dzi)) level with
        | error e => simp [stitch_multi_map_prepare, hv, hbnd, hlvl, hc] at hp
        | ok lv0 =>
          simp [stitch_multi_map_prepare, hv, hbnd, hlvl, hc] at hp
          subst hp
          exact ⟨rfl, rfl, rfl, rfl⟩
    · simp [stitch_multi_map_prepare, hv, hc] at hp

/-- A successful multi-map stitch passes through a successful
preparation, takes its canvas size from it, and allocates the canvas it
reports. -/
theorem stitch_ok_prepare (maps : List MapSource) (level : ℤ)
    (r : StitchResult) (hr : stitch_multi_map maps level = .ok r) :
    ∃ prep, stitch_multi_map_prepare maps level = .ok prep ∧
      r.canvas_w = prep.canvas_w ∧ r.canvas_h = prep.canvas_h ∧
      (stitch_multi_map_run maps level).1.head? =
        some (.allocCanvas prep.canvas_w prep.canvas_h) := by
  cases hp : stitch_multi_map_prepare maps level with
  | error e =>
    simp only [stitch_multi_map, stitch_multi_map_run, hp] at hr
    cases hr
  | ok prep =>
    cases hl : stitchMapsLoop prep.bounds prep.levels.scale_factor
        prep.canvas_w prep.canvas_h (maps.zip prep.levels.map_info) with
    | error e =>
      simp only [stitch_multi_map, stitch_multi_map_run, hp, hl] at hr
      cases hr
    | ok ps =>
      simp only [stitch_multi_map, stitch_multi_map_run, hp, hl] at hr ⊢
      injection hr with h
      subst h
      exact ⟨prep, rfl, rfl, rfl, rfl⟩

/-! ## C7: structural failures abort before the canvas -/

/--
C7: any failure of the stages before the canvas — compatibility
validation, bounds computation, or level resolution — aborts the run
with the exception and an empty effect trace: no canvas allocation and
no output-file write happen, so the filesystem is untouched.
-/
theorem abortBeforeCanvas_spec (maps : List MapSource) (level : ℤ)
    (e : StitchError) (h : stitch_multi_map_prepare maps level = .error e) :
    stitch_multi_map_run maps level = ([], .error e) ∧
    StitchEvent.writeFile ∉ (stitch_multi_map_run maps level).1 ∧
    ∀ cw ch, StitchEvent.allocCanvas cw ch ∉ (stitch_multi_map_run maps level).1 := by
  have hrun : stitch_multi_map_run maps level = ([], .error e) := by
    unfold stitch_multi_map_run
    rw [h]
  exact ⟨hrun, by rw [hrun]; simp, fun cw ch => by rw [hrun]; simp⟩

/-- Two maps that disagree on `cell_size` (300 vs 256). -/
def exBad1 : MapSource :=
  { info := some { x0 := 0, y0 := 0, w := 300, h := 300,
                   cell_size := 300, sqr := 1, pz_version := "B41" },
    dzi := { width := 300, height := 300, tile_size := 300 },
    tiles := fun _ => none }

def exBad2 : MapSource :=
  { info := some { x0 := 0, y0 := 0, w := 300, h := 300,
                   cell_size := 256, sqr := 1, pz_version := "B41" },
    dzi := { width := 300, height := 300, tile_size := 300 },
    tiles := fun _ => none }

/-- Closed instantiation of `abortBeforeCanvas_spec` on two maps with
mismatched `cell_size`. -/
theorem abortBeforeCanvas_spec_witness :
    stitch_multi_map_run [exBad1, exBad2] 0 = ([], .error .incompatibleMaps) ∧
    StitchEvent.writeFile ∉ (stitch_multi_map_run [exBad1, exBad2] 0).1 ∧
    ∀ cw ch, StitchEvent.allocCanvas cw ch ∉
      (stitch_multi_map_run [exBad1, exBad2] 0).1 :=
  abortBeforeCanvas_spec [exBad1, exBad2] 0 .incompatibleMaps (by decide)

/-! ## C10: single-map no-tiles failure vs multi-map skip -/

/--
C10: `stitch_single_map` fails (producing no output) whenever zero tiles
are found for the requested valid level — in particular when the level
directory is absent the loader returns `[]` — whereas the multi-map
compositor returns successfully with no composites for a tile-less map.
-/
theorem singleMapNoTiles_spec (m : MapSource) (level : ℤ)
    (pyr : List (ℤ × ℤ))
    (hpyr : build_pyramid m.dzi.width m.dzi.height = .ok pyr)
    (hlevel : 0 ≤ level ∧ level ≤ (pyr.length : ℤ) - 1)
    (hempty : load_tiles_for_level m level = []) :
    stitch_single_map m level = .error .noTiles ∧
    (∀ L, m.tiles L = none → load_tiles_for_level m L = []) ∧
    (∀ info bounds sf cw ch, load_tiles_for_level m info.actual_level = [] →
      stitch_map_onto_canvas m info bounds sf cw ch = .ok []) := by
  refine ⟨?_, ?_, ?_⟩
  · simp only [stitch_single_map, hpyr]
    rw [if_neg (not_not_intro hlevel), hempty]
    rfl
  · intro L hL
    unfold load_tiles_for_level
    rw [hL]
  · intro info bounds sf cw ch h0
    unfold stitch_map_onto_canvas
    rw [h0]
    rfl

/-- A map whose level directories are all absent. -/
def exEmptyMap : MapSource :=
  { info := some { x0 := 0, y0 := 0, w := 3, h := 3,
                   cell_size := 300, sqr := 1, pz_version := "B41" },
    dzi := { width := 3, height := 3, tile_size := 300 },
    tiles := fun _ => none }

/-- Closed instantiation of `singleMapNoTiles_spec` on a map with no
tile directories, at valid level 1. -/
theorem singleMapNoTiles_spec_witness :
    stitch_single_map exEmptyMap 1 = .error .noTiles ∧
    (∀ L, exEmptyMap.tiles L = none → load_tiles_for_level exEmptyMap L = []) ∧
    (∀ info bounds sf cw ch,
      load_tiles_for_level exEmptyMap info.actual_level = [] →
      stitch_map_onto_canvas exEmptyMap info bounds sf cw ch = .ok []) :=
  singleMapNoTiles_spec exEmptyMap 1 [(1, 1), (2, 2), (3, 3)]
    (by simp [build_pyramid, pyramidDown, exEmptyMap])
    (by norm_num)
    (by simp [load_tiles_for_level, exEmptyMap])

/-! ## C3: canvas size -/

/-- A single 3×3 map: odd global width, so that at `zoom_out = 1` the
float product `width * scale_factor = 1.5` distinguishes truncation
from rounding. -/
def exMapC3 : MapSource :=
  { info := some { x0 := 0, y0 := 0, w := 3, h := 3,
                   cell_size := 300, sqr := 1, pz_version := "B41" },
    dzi := { width := 3, height := 3, tile_size := 300 },
    tiles := fun _ => none }

theorem exMapC3_prepare : stitch_multi_map_prepare [exMapC3] 1 = .ok
    { compat := { compatible := true, sqr := some 1, cell_size := some 300,
                  pz_version := some "B41", warnings := [], errors := [] },
      bounds := { min_x := 0, min_y := 0, max_x := 3, max_y := 3,
                  width := 3, height := 3,
                  maps := [{ x0 := 0, y0 := 0, w := 3, h := 3,
                             offset_x := 0, offset_y := 0 }] },
      levels := { highest_max := 2, zoom_out := 1, scale_factor := 1 / 2,
                  map_info := [{ max_level := 2, actual_level := 1,
                                 dzi := { width := 3, height := 3,
                                          tile_size := 300 } }] },
      canvas_w := 1, canvas_h := 1 } := by
  simp [stitch_multi_map_prepare, validate_map_compatibility, validateInfos,
    readInfos, read_map_info, exMapC3, allEqHead, calculate_global_bounds,
    intMin, intMax, calculate_map_levels, readMaxLevels, get_max_level,
    build_pyramid, pyramidDown, Except.map]
  norm_num [pyTrunc]
  decide

/--
C3 counterexample: for the single 3×3 map at level 1 the global width is
3 and the scale factor 1/2, yet the canvas is allocated 1 pixel wide
(`int(1.5)` truncates), while `round(1.5)` is 2.
-/
theorem canvasSize_counterexample :
    (calculate_global_bounds [exMapC3]).map (fun b => b.width) = .ok 3 ∧
    (calculate_map_levels ([exMapC3].map (fun m => m.dzi)) 1).map
      (fun lv => lv.scale_factor) = .ok (1 / 2 : ℚ) ∧
    (stitch_multi_map [exMapC3] 1).map (fun r => r.canvas_w) = .ok 1 ∧
    pyRound ((3 : ℚ) * (1 / 2)) = 2 := by
  refine ⟨by decide, ?_, ?_, by norm_num [pyRound]⟩
  · simp [calculate_map_levels, readMaxLevels, get_max_level, build_pyramid,
      pyramidDown, Except.map, exMapC3, intMax]
  · rw [stitch_multi_map, stitch_multi_map_run, exMapC3_prepare]
    simp [stitchMapsLoop, stitch_map_onto_canvas, load_tiles_for_level,
      exMapC3, Except.map]

/--
C3 (amended): for every successful multi-map stitch, the canvas is
allocated with pixel dimensions `int(GlobalBounds.width * scaleFactor)`
by `int(GlobalBounds.height * scaleFactor)` — truncation toward zero
(Python `int()`), not `round`.
-/
theorem canvasSize_spec (maps : List MapSource) (level : ℤ)
    (b : GlobalBounds) (lv : MapLevels) (r : StitchResult)
    (hb : calculate_global_bounds maps = .ok b)
    (hlv : calculate_map_levels (maps.map (fun m => m.dzi)) level = .ok lv)
    (hr : stitch_multi_map maps level = .ok r) :
    r.canvas_w = pyTrunc ((b.width : ℚ) * lv.scale_factor) ∧
    r.canvas_h = pyTrunc ((b.height : ℚ) * lv.scale_factor) ∧
    (stitch_multi_map_run maps level).1.head? =
      some (.allocCanvas (pyTrunc ((b.width : ℚ) * lv.scale_factor))
        (pyTrunc ((b.height : ℚ) * lv.scale_factor))) := by
  obtain ⟨prep, hp, hw, hh, halloc⟩ := stitch_ok_prepare maps level r hr
  obtain ⟨hb', hlv', hcw, hch⟩ := prepare_fields maps level prep hp
  rw [hb] at hb'
  injection hb' with e1
  rw [hlv] at hlv'
  injection hlv' with e2
  subst e1
  subst e2
  exact ⟨hw.trans hcw, hh.trans hch, by rw [halloc, hcw, hch]⟩

/-- Closed instantiation of `canvasSize_spec` at the 3×3 map, level 1:
the allocated canvas is 1×1 (`int(1.5) = 1`). -/
theorem canvasSize_spec_witness :
    (1 : ℤ) = pyTrunc ((3 : ℚ) * (1 / 2)) ∧
    pyTrunc ((3 : ℚ) * (1 / 2)) = 1 := by
  have hb : calculate_global_bounds [exMapC3] = .ok
      { min_x := 0, min_y := 0, max_x := 3, max_y := 3,
        width := 3, height := 3,
        maps := [{ x0 := 0, y0 := 0, w := 3, h := 3,
                   offset_x := 0, offset_y := 0 }] } := by decide
  have hlv : calculate_map_levels ([exMapC3].map (fun m => m.dzi)) 1 = .ok
      { highest_max := 2, zoom_out := 1, scale_factor := 1 / 2,
        map_info := [{ max_level := 2, actual_level := 1,
                       dzi := { width := 3, height := 3, tile_size := 300 } }] } := by
    simp [calculate_map_levels, readMaxLevels, get_max_level, build_pyramid,
      pyramidDown, Except.map, exMapC3, intMax]
  have hr : stitch_multi_map [exMapC3] 1 = .ok
      { canvas_w := 1, canvas_h := 1, placements := [] } := by
    rw [stitch_multi_map, stitch_multi_map_run, exMapC3_prepare]
    simp [stitchMapsLoop, stitch_map_onto_canvas, load_tiles_for_level,
      exMapC3, Except.map]
  have h := canvasSize_spec [exMapC3] 1 _ _ _ hb hlv hr
  refine ⟨h.1, ?_⟩
  norm_num [pyTrunc]
  decide

/-! ## C2: per-tile placement -/

/-- The spec's per-tile formula (§4.6 steps 2–5), stated independently of
the loop embedding: with `worldX = -x0`, `worldY = -y0` and
`levelScaleUp = 2^(maxLevel - actualLevel)`, the tile's canvas rectangle
is `canvasX = round((worldX + tileGridX·tileSize·levelScaleUp -
globalMinX)·scaleFactor)` (same for Y) and `canvasW/H =
round(tileActualPixelSize·levelScaleUp·scaleFactor)`, resampled to at
least 1×1 when the natural size disagrees. -/
def specTileRect (mi : MapInfoData) (info : MapLevelInfo)
    (bounds : GlobalBounds) (sf : ℚ) (t : Tile) : Placement :=
  let lsu := (2 : ℤ) ^ (info.max_level - info.actual_level).toNat
  let cx := pyRound (((-mi.x0 + t.x * info.dzi.tile_size * lsu
    - bounds.min_x : ℤ) : ℚ) * sf)
  let cy := pyRound (((-mi.y0 + t.y * info.dzi.tile_size * lsu
    - bounds.min_y : ℤ) : ℚ) * sf)
  let cw := pyRound (((t.image.w * lsu : ℤ) : ℚ) * sf)
  let ch := pyRound (((t.image.h * lsu : ℤ) : ℚ) * sf)
  let pw := if (t.image.w, t.image.h) = (cw, ch) then t.image.w else max 1 cw
  let ph := if (t.image.w, t.image.h) = (cw, ch) then t.image.h else max 1 ch
  { x := cx, y := cy, w := pw, h := ph, image := t.image }

/-- Steps 6–7 of §4.6: composite the rectangle when it overlaps the
canvas, skip it (no error) otherwise. -/
def specTilePlacement (mi : MapInfoData) (info : MapLevelInfo)
    (bounds : GlobalBounds) (sf : ℚ) (canvas_w canvas_h : ℤ) (t : Tile) :
    Option Placement :=
  let p := specTileRect mi info bounds sf t
  if is_within_canvas p.x p.y p.w p.h canvas_w canvas_h then some p else none

/--
C2: for a map with readable metadata and a nonempty tile list, the
compositor performs exactly the composite calls given by the spec's
per-tile formula, in tile order; a tile whose rectangle does not overlap
the canvas is skipped without error.
-/
theorem stitchMapOntoCanvas_spec (m : MapSource) (mi : MapInfoData)
    (info : MapLevelInfo) (bounds : GlobalBounds) (sf : ℚ) (cw ch : ℤ)
    (hmi : m.info = some mi)
    (hne : load_tiles_for_level m info.actual_level ≠ []) :
    stitch_map_onto_canvas m info bounds sf cw ch =
      .ok ((load_tiles_for_level m info.actual_level).filterMap
        (specTilePlacement mi info bounds sf cw ch)) ∧
    ∀ t, is_within_canvas (specTileRect mi info bounds sf t).x
        (specTileRect mi info bounds sf t).y
        (specTileRect mi info bounds sf t).w
        (specTileRect mi info bounds sf t).h cw ch = false →
      specTilePlacement mi info bounds sf cw ch t = none := by
  constructor
  · unfold stitch_map_onto_canvas
    rw [if_neg (by simp [hne])]
    simp only [read_map_info, hmi]
    rfl
  · intro t hfalse
    unfold specTilePlacement
    rw [if_neg (by simp [hfalse])]

/-- A map with one 300×300 tile at grid `(0, 0)` of level 0. -/
def exMapW : MapSource :=
  { info := some { x0 := 0, y0 := 0, w := 300, h := 300,
                   cell_size := 300, sqr := 1, pz_version := "B41" },
    dzi := { width := 300, height := 300, tile_size := 300 },
    tiles := fun lvl => if lvl = 0 then
      some [{ coords := some (0, 0), image := { w := 300, h := 300, tag := 0 } }]
      else none }

/-- The level-resolution entry used for `exMapW` in the witness. -/
def exInfoW : MapLevelInfo :=
  { max_level := 0, actual_level := 0,
    dzi := { width := 300, height := 300, tile_size := 300 } }

/-- The bounds used for `exMapW` in the witness. -/
def exBoundsW : GlobalBounds :=
  { min_x := 0, min_y := 0, max_x := 300, max_y := 300,
    width := 300, height := 300, maps := [] }

/-- The metadata record of `exMapW`. -/
def exMiW : MapInfoData :=
  { x0 := 0, y0 := 0, w := 300, h := 300,
    cell_size := 300, sqr := 1, pz_version := "B41" }

/-- Closed instantiation of `stitchMapOntoCanvas_spec` at a one-tile
map on a 300×300 canvas at scale 1. -/
theorem stitchMapOntoCanvas_spec_witness :
    stitch_map_onto_canvas exMapW exInfoW exBoundsW 1 300 300 =
      .ok ((load_tiles_for_level exMapW exInfoW.actual_level).filterMap
        (specTilePlacement exMiW exInfoW exBoundsW 1 300 300)) ∧
    ∀ t, is_within_canvas (specTileRect exMiW exInfoW exBoundsW 1 t).x
        (specTileRect exMiW exInfoW exBoundsW 1 t).y
        (specTileRect exMiW exInfoW exBoundsW 1 t).w
        (specTileRect exMiW exInfoW exBoundsW 1 t).h 300 300 = false →
      specTilePlacement exMiW exInfoW exBoundsW 1 300 300 t = none :=
  stitchMapOntoCanvas_spec exMapW exMiW exInfoW exBoundsW 1 300 300 (by rfl)
    (by simp [load_tiles_for_level, parseTiles, exMapW, exInfoW])

/-! ## C6: compatibility validation -/

theorem pairwise_of_all_eq {α β : Type} (f : α → β) (c : β) :
    ∀ (t : List α), (∀ x ∈ t, f x = c) → t.Pairwise (fun a b => f a = f b) := by
  intro t
  induction t with
  | nil => intro _; exact List.Pairwise.nil
  | cons b t' ih =>
    intro h
    refine List.pairwise_cons.mpr ⟨?_, ih (fun x hx => h x (List.mem_cons_of_mem b hx))⟩
    intro y hy
    rw [h b (List.mem_cons_self b t'), h y (List.mem_cons_of_mem b hy)]

/-- Python `len(set(l.map f)) == 1` on a nonempty list says exactly that `f` is
constant on the list. -/
theorem allEqHead_map_iff {α β : Type} [DecidableEq β] (f : α → β)
    (l : List α) (hne : l ≠ []) :
    allEqHead (l.map f) = true ↔ l.Pairwise (fun a b => f a = f b) := by
  cases l with
  | nil => exact absurd rfl hne
  | cons a t =>
    simp only [List.map_cons, allEqHead, List.all_eq_true, decide_eq_true_eq,
      List.pairwise_cons, List.mem_map]
    constructor
    · intro hall
      have hall' : ∀ x ∈ t, f x = f a := by
        intro x hx
        exact hall (f x) ⟨x, hx, rfl⟩
      exact ⟨fun b hb => (hall' b hb).symm, pairwise_of_all_eq f (f a) t hall'⟩
    · rintro ⟨hhead, _⟩ x ⟨b, hb, rfl⟩
      exact (hhead b hb).symm

/--
C6 counterexample: on the empty input — whose maps vacuously all share
`sqr` and `cell_size` — `validate_map_compatibility` still returns
`compatible=false` with a nonempty error list, so the claimed
"exactly when" equivalence fails there.
-/
theorem validateCompat_counterexample :
    (∃ res, validate_map_compatibility ([] : List MapSource) = .ok res ∧
      res.compatible = false ∧ res.errors ≠ []) ∧
    ([] : List MapInfoData).Pairwise (fun a b => a.sqr = b.sqr) ∧
    ([] : List MapInfoData).Pairwise (fun a b => a.cell_size = b.cell_size) ∧
    readInfos ([] : List MapSource) = .ok [] := by
  refine ⟨⟨{ compatible := false, sqr := none, cell_size := none,
             pz_version := none, warnings := [], errors := [.noMapPaths] },
    by decide, by decide, by decide⟩, .nil, .nil, rfl⟩

/--
C6 (amended): for every NONEMPTY set of readable map descriptors,
`validate_map_compatibility` returns (raising no exception)
`compatible=false` with a nonempty error list exactly when the maps do
not all share identical `sqr` and `cell_size`; version mismatches alone
leave `compatible=true` with only warnings; and whenever
`compatible=false`, `stitch_multi_map` fails with `IncompatibleMaps`
having produced no canvas and no output.  (On the empty input the code
returns `compatible=false` with a generic error, though the sharing
condition holds vacuously.)
-/
theorem validateCompat_spec (maps : List MapSource) (infos : List MapInfoData)
    (hne : maps ≠ []) (hinfos : readInfos maps = .ok infos) :
    validate_map_compatibility maps = .ok (validateInfos infos) ∧
    (((validateInfos infos).compatible = false ∧
      (validateInfos infos).errors ≠ []) ↔
      ¬ (infos.Pairwise (fun a b => a.sqr = b.sqr) ∧
         infos.Pairwise (fun a b => a.cell_size = b.cell_size))) ∧
    ((infos.Pairwise (fun a b => a.sqr = b.sqr) ∧
      infos.Pairwise (fun a b => a.cell_size = b.cell_size)) →
      (validateInfos infos).compatible = true ∧
      (validateInfos infos).errors = []) ∧
    ((infos.Pairwise (fun a b => a.sqr = b.sqr) ∧
      infos.Pairwise (fun a b => a.cell_size = b.cell_size) ∧
      ¬ infos.Pairwise (fun a b => a.pz_version = b.pz_version)) →
      (validateInfos infos).compatible = true ∧
      (validateInfos infos).warnings ≠ []) ∧
    (∀ level, (validateInfos infos).compatible = false →
      stitch_multi_map_run maps level = ([], .error .incompatibleMaps)) := by
  have hlen := readInfos_length maps infos hinfos
  have hinfne : infos ≠ [] := by
    intro h
    subst h
    exact hne (List.length_eq_zero.mp hlen.symm)
  have hval : validate_map_compatibility maps = .ok (validateInfos infos) := by
    rw [validate_map_compatibility, if_neg (by simp [hne]), hinfos]
  have hs := allEqHead_map_iff (fun i => i.sqr) infos hinfne
  have hc := allEqHead_map_iff (fun i => i.cell_size) infos hinfne
  have hv := allEqHead_map_iff (fun i => i.pz_version) infos hinfne
  refine ⟨hval, ?_, ?_, ?_, ?_⟩
  · by_cases h1 : allEqHead (infos.map (fun i => i.sqr)) = true <;>
      by_cases h2 : allEqHead (infos.map (fun i => i.cell_size)) = true <;>
      simp [validateInfos, h1, h2, ← hs, ← hc]
  · intro ⟨p1, p2⟩
    have h1 := hs.mpr p1
    have h2 := hc.mpr p2
    simp [validateInfos, h1, h2]
  · intro ⟨p1, p2, p3⟩
    have h1 := hs.mpr p1
    have h2 := hc.mpr p2
    have h3 : allEqHead (infos.map (fun i => i.pz_version)) = false := by
      rw [Bool.eq_false_iff]
      intro hcon
      exact p3 (hv.mp hcon)
    simp [validateInfos, h1, h2, h3]
  · intro level hfalse
    have hprep : stitch_multi_map_prepare maps level =
        .error .incompatibleMaps := by
      rw [stitch_multi_map_prepare, hval]
      simp [hfalse]
    rw [stitch_multi_map_run, hprep]

/-- The metadata record of `exBad1`. -/
def exBadInfo1 : MapInfoData :=
  { x0 := 0, y0 := 0, w := 300, h := 300,
    cell_size := 300, sqr := 1, pz_version := "B41" }

/-- The metadata record of `exBad2` (mismatched `cell_size`). -/
def exBadInfo2 : MapInfoData :=
  { x0 := 0, y0 := 0, w := 300, h := 300,
    cell_size := 256, sqr := 1, pz_version := "B41" }

/-- Closed instantiation of `validateCompat_spec` on the mismatched
`cell_size` pair. -/
theorem validateCompat_spec_witness :
    validate_map_compatibility [exBad1, exBad2] =
      .ok (validateInfos [exBadInfo1, exBadInfo2]) ∧
    (((validateInfos [exBadInfo1, exBadInfo2]).compatible = false ∧
      (validateInfos [exBadInfo1, exBadInfo2]).errors ≠ []) ↔
      ¬ ([exBadInfo1, exBadInfo2].Pairwise (fun a b => a.sqr = b.sqr) ∧
         [exBadInfo1, exBadInfo2].Pairwise
           (fun a b => a.cell_size = b.cell_size))) ∧
    (([exBadInfo1, exBadInfo2].Pairwise (fun a b => a.sqr = b.sqr) ∧
      [exBadInfo1, exBadInfo2].Pairwise (fun a b => a.cell_size = b.cell_size)) →
      (validateInfos [exBadInfo1, exBadInfo2]).compatible = true ∧
      (validateInfos [exBadInfo1, exBadInfo2]).errors = []) ∧
    (([exBadInfo1, exBadInfo2].Pairwise (fun a b => a.sqr = b.sqr) ∧
      [exBadInfo1, exBadInfo2].Pairwise (fun a b => a.cell_size = b.cell_size) ∧
      ¬ [exBadInfo1, exBadInfo2].Pairwise
        (fun a b => a.pz_version = b.pz_version)) →
      (validateInfos [exBadInfo1, exBadInfo2]).compatible = true ∧
      (validateInfos [exBadInfo1, exBadInfo2]).warnings ≠ []) ∧
    (∀ level, (validateInfos [exBadInfo1, exBadInfo2]).compatible = false →
      stitch_multi_map_run [exBad1, exBad2] level =
        ([], .error .incompatibleMaps)) :=
  validateCompat_spec [exBad1, exBad2] [exBadInfo1, exBadInfo2]
    (by simp) (by rfl)

/-! ## C8: determinism under directory enumeration order -/

/-- Two level-directory listings that hold the same files, possibly
enumerated in different orders by the filesystem. -/
def dirPerm : Option (List TileFile) → Option (List TileFile) → Prop
  | none, none => True
  | some l1, some l2 => l1.Perm l2
  | _, _ => False

/-- Two map sources identical except for directory enumeration order. -/
def sameUpToDirOrder (m1 m2 : MapSource) : Prop :=
  m1.info = m2.info ∧ m1.dzi = m2.dzi ∧ ∀ L, dirPerm (m1.tiles L) (m2.tiles L)

/-- Each parsed tile coordinate occurs at most once in the directory
listing (e.g. a single image format per tile). -/
def coordsNodup (d : Option (List TileFile)) : Prop :=
  match d with
  | none => True
  | some files => ((parseTiles files).map (fun t => (t.y, t.x))).Nodup

/-- Strict lexicographic order on tile keys `(y, x)`. -/
def tileKeyLT (a b : Tile) : Prop :=
  a.y < b.y ∨ (a.y = b.y ∧ a.x < b.x)

instance : IsAntisymm Tile tileKeyLT := by
  constructor
  intro a b h1 h2
  exfalso
  rcases h1 with h | ⟨h1a, h1b⟩ <;> rcases h2 with h' | ⟨h2a, h2b⟩ <;> omega

/-- A sorted list with pairwise-distinct keys is sorted strictly. -/
theorem pairwise_tileKeyLT_of_sorted (l : List Tile)
    (hle : l.Pairwise (fun a b => tileLE a b))
    (hnd : (l.map (fun t => (t.y, t.x))).Nodup) :
    l.Pairwise tileKeyLT := by
  rw [List.Nodup, List.pairwise_map] at hnd
  refine (hle.and hnd).imp ?_
  intro a b hab
  obtain ⟨hab1, hab2⟩ := hab
  simp only [tileLE, decide_eq_true_eq] at hab1
  rw [ne_eq, Prod.mk.injEq, not_and] at hab2
  rcases hab1 with h | ⟨h1, h2⟩
  · exact Or.inl h
  · right
    refine ⟨h1, lt_of_le_of_ne h2 ?_⟩
    intro hx
    exact hab2 h1 hx

/-- A stable sort by `(y, x)` is order-independent once the keys are
distinct: any two permuted inputs sort to the same list. -/
theorem mergeSort_tileLE_eq_of_perm (l1 l2 : List Tile)
    (hperm : l1.Perm l2)
    (hnodup : (l1.map (fun t => (t.y, t.x))).Nodup) :
    l1.mergeSort tileLE = l2.mergeSort tileLE := by
  have htrans : ∀ a b c : Tile, tileLE a b → tileLE b c → tileLE a c := by
    intro a b c hab hbc
    simp only [tileLE, decide_eq_true_eq] at hab hbc ⊢
    omega
  have htotal : ∀ a b : Tile, tileLE a b || tileLE b a := by
    intro a b
    simp only [tileLE, Bool.or_eq_true, decide_eq_true_eq]
    omega
  have hp12 : (l1.mergeSort tileLE).Perm (l2.mergeSort tileLE) :=
    (List.mergeSort_perm l1 _).trans (hperm.trans (List.mergeSort_perm l2 _).symm)
  have hkeys1 : ((l1.mergeSort tileLE).map (fun t => (t.y, t.x))).Nodup :=
    ((List.mergeSort_perm l1 tileLE).map (fun t => (t.y, t.x))).nodup_iff.mpr hnodup
  have hkeys2 : ((l2.mergeSort tileLE).map (fun t => (t.y, t.x))).Nodup :=
    ((hp12.symm.trans (List.mergeSort_perm l1 tileLE)).map
      (fun t => (t.y, t.x))).nodup_iff.mpr hnodup
  exact List.eq_of_perm_of_sorted hp12
    (pairwise_tileKeyLT_of_sorted _ (List.sorted_mergeSort htrans htotal l1) hkeys1)
    (pairwise_tileKeyLT_of_sorted _ (List.sorted_mergeSort htrans htotal l2) hkeys2)

/-- The loader yields the same tile list for any enumeration order of a
directory with distinct tile coordinates. -/
theorem load_tiles_deterministic (m1 m2 : MapSource) (L : ℤ)
    (hdir : dirPerm (m1.tiles L) (m2.tiles L))
    (hnodup : coordsNodup (m1.tiles L)) :
    load_tiles_for_level m1 L = load_tiles_for_level m2 L := by
  unfold load_tiles_for_level
  cases h1 : m1.tiles L with
  | none =>
    cases h2 : m2.tiles L with
    | none => rfl
    | some l2 => rw [h1, h2] at hdir; exact absurd hdir (by simp [dirPerm])
  | some l1 =>
    cases h2 : m2.tiles L with
    | none => rw [h1, h2] at hdir; exact absurd hdir (by simp [dirPerm])
    | some l2 =>
      rw [h1, h2] at hdir
      rw [h1] at hnodup
      simp only [dirPerm] at hdir
      simp only [coordsNodup] at hnodup
      exact mergeSort_tileLE_eq_of_perm _ _ (hdir.filterMap _) hnodup

/-- The compositor's per-map output only depends on the directory
content, not its enumeration order (given distinct coordinates). -/
theorem stitch_map_congr (m1 m2 : MapSource) (info : MapLevelInfo)
    (bounds : GlobalBounds) (sf : ℚ) (cw ch : ℤ)
    (hrel : sameUpToDirOrder m1 m2)
    (hnodup : ∀ L, coordsNodup (m1.tiles L)) :
    stitch_map_onto_canvas m1 info bounds sf cw ch =
      stitch_map_onto_canvas m2 info bounds sf cw ch := by
  have hload := load_tiles_deterministic m1 m2 info.actual_level
    (hrel.2.2 _) (hnodup _)
  unfold stitch_map_onto_canvas
  rw [hload]
  simp only [read_map_info, hrel.1]

/-- The map loop is enumeration-order independent. -/
theorem stitchMapsLoop_congr (bounds : GlobalBounds) (sf : ℚ) (cw ch : ℤ) :
    ∀ (ms1 ms2 : List MapSource),
      List.Forall₂ sameUpToDirOrder ms1 ms2 →
      (∀ m ∈ ms1, ∀ L, coordsNodup (m.tiles L)) →
      ∀ (infos : List MapLevelInfo),
      stitchMapsLoop bounds sf cw ch (ms1.zip infos) =
        stitchMapsLoop bounds sf cw ch (ms2.zip infos) := by
  intro ms1 ms2 hrel
  induction hrel with
  | nil => intro _ _; rfl
  | @cons m1 m2 t1 t2 h12 hrest ih =>
    intro hnodup infos
    cases infos with
    | nil => rfl
    | cons info irest =>
      simp only [List.zip_cons_cons, stitchMapsLoop]
      have ih' := ih (fun m hm L => hnodup m (List.mem_cons_of_mem m1 hm) L) irest
      simp only [List.zip] at ih'
      rw [stitch_map_congr m1 m2 info bounds sf cw ch h12
        (fun L => hnodup m1 (List.mem_cons_self m1 t1) L), ih']

theorem readInfos_congr :
    ∀ (ms1 ms2 : List MapSource), List.Forall₂ sameUpToDirOrder ms1 ms2 →
      readInfos ms1 = readInfos ms2 := by
  intro ms1 ms2 hrel
  induction hrel with
  | nil => rfl
  | @cons m1 m2 t1 t2 h12 hrest ih =>
    simp only [readInfos, read_map_info, h12.1, ih]

theorem mapDzi_congr :
    ∀ (ms1 ms2 : List MapSource), List.Forall₂ sameUpToDirOrder ms1 ms2 →
      ms1.map (fun m => m.dzi) = ms2.map (fun m => m.dzi) := by
  intro ms1 ms2 hrel
  induction hrel with
  | nil => rfl
  | @cons m1 m2 t1 t2 h12 hrest ih =>
    simp only [List.map_cons, h12.2.1, ih]

/--
C8 (amended): provided each tile coordinate appears at most once per
level directory, the whole multi-map stitch — its result and its effect
trace — is independent of the enumeration order the filesystem returns
for the tile directories; hence two runs on identical inputs produce
identical (byte-identical, for a deterministic lossless encoder) output.
-/
theorem stitchDeterminism_spec (ms1 ms2 : List MapSource) (level : ℤ)
    (hrel : List.Forall₂ sameUpToDirOrder ms1 ms2)
    (hnodup : ∀ m ∈ ms1, ∀ L, coordsNodup (m.tiles L)) :
    stitch_multi_map_run ms1 level = stitch_multi_map_run ms2 level ∧
    stitch_multi_map ms1 level = stitch_multi_map ms2 level := by
  have hinfos : readInfos ms1 = readInfos ms2 := readInfos_congr ms1 ms2 hrel
  have hdzis : ms1.map (fun m => m.dzi) = ms2.map (fun m => m.dzi) :=
    mapDzi_congr ms1 ms2 hrel
  have hemp : ms1.isEmpty = ms2.isEmpty := by cases hrel <;> rfl
  have hval : validate_map_compatibility ms1 = validate_map_compatibility ms2 := by
    unfold validate_map_compatibility
    rw [hemp, hinfos]
  have hbnd : calculate_global_bounds ms1 = calculate_global_bounds ms2 := by
    unfold calculate_global_bounds
    rw [hemp, hinfos]
  have hlvl : calculate_map_levels (ms1.map (fun m => m.dzi)) level =
      calculate_map_levels (ms2.map (fun m => m.dzi)) level := by
    rw [hdzis]
  have hprep : stitch_multi_map_prepare ms1 level =
      stitch_multi_map_prepare ms2 level := by
    unfold stitch_multi_map_prepare
    rw [hval, hbnd, hlvl]
  have hrun : stitch_multi_map_run ms1 level = stitch_multi_map_run ms2 level := by
    unfold stitch_multi_map_run
    rw [hprep]
    cases hp : stitch_multi_map_prepare ms2 level with
    | error e => rfl
    | ok prep =>
      dsimp only
      rw [stitchMapsLoop_congr prep.bounds prep.levels.scale_factor
        prep.canvas_w prep.canvas_h ms1 ms2 hrel hnodup prep.levels.map_info]
  exact ⟨hrun, by unfold stitch_multi_map; rw [hrun]⟩

/-- Directory entry `0_0.webp`, a 2×2 image (content tag 1). -/
def tFileA : TileFile :=
  { coords := some (0, 0), image := { w := 2, h := 2, tag := 1 } }

/-- Directory entry `0_0.png`, a different 2×2 image (content tag 2)
with the same tile coordinates. -/
def tFileB : TileFile :=
  { coords := some (0, 0), image := { w := 2, h := 2, tag := 2 } }

/-- Metadata of the 2×2 counterexample map. -/
def exMiT : MapInfoData :=
  { x0 := 0, y0 := 0, w := 2, h := 2,
    cell_size := 300, sqr := 1, pz_version := "B41" }

/-- The 2×2 map whose level-1 directory enumerates `0_0.webp` first. -/
def mT1 : MapSource :=
  { info := some exMiT,
    dzi := { width := 2, height := 2, tile_size := 300 },
    tiles := fun L => if L = 1 then some [tFileA, tFileB] else none }

/-- The same map with the opposite enumeration order. -/
def mT2 : MapSource :=
  { info := some exMiT,
    dzi := { width := 2, height := 2, tile_size := 300 },
    tiles := fun L => if L = 1 then some [tFileB, tFileA] else none }

/-- Both parsed tiles carry the key `(0, 0)`: the stable sort keeps the
enumeration order, whichever it is. -/
theorem sort_tie_AB : List.mergeSort
    [({ x := 0, y := 0, image := { w := 2, h := 2, tag := 1 } } : Tile),
     { x := 0, y := 0, image := { w := 2, h := 2, tag := 2 } }] tileLE =
    [({ x := 0, y := 0, image := { w := 2, h := 2, tag := 1 } } : Tile),
     { x := 0, y := 0, image := { w := 2, h := 2, tag := 2 } }] :=
  List.mergeSort_of_sorted (by decide)

theorem sort_tie_BA : List.mergeSort
    [({ x := 0, y := 0, image := { w := 2, h := 2, tag := 2 } } : Tile),
     { x := 0, y := 0, image := { w := 2, h := 2, tag := 1 } }] tileLE =
    [({ x := 0, y := 0, image := { w := 2, h := 2, tag := 2 } } : Tile),
     { x := 0, y := 0, image := { w := 2, h := 2, tag := 1 } }] :=
  List.mergeSort_of_sorted (by decide)

theorem mT1_prepare : stitch_multi_map_prepare [mT1] 1 = .ok
    { compat := { compatible := true, sqr := some 1, cell_size := some 300,
                  pz_version := some "B41", warnings := [], errors := [] },
      bounds := { min_x := 0, min_y := 0, max_x := 2, max_y := 2,
                  width := 2, height := 2,
                  maps := [{ x0 := 0, y0 := 0, w := 2, h := 2,
                             offset_x := 0, offset_y := 0 }] },
      levels := { highest_max := 1, zoom_out := 0, scale_factor := 1,
                  map_info := [{ max_level := 1, actual_level := 1,
                                 dzi := { width := 2, height := 2,
                                          tile_size := 300 } }] },
      canvas_w := 2, canvas_h := 2 } := by
  simp [stitch_multi_map_prepare, validate_map_compatibility, validateInfos,
    readInfos, read_map_info, mT1, exMiT, allEqHead, calculate_global_bounds,
    intMin, intMax, calculate_map_levels, readMaxLevels, get_max_level,
    build_pyramid, pyramidDown, Except.map]
  norm_num [pyTrunc]

theorem mT2_prepare : stitch_multi_map_prepare [mT2] 1 = .ok
    { compat := { compatible := true, sqr := some 1, cell_size := some 300,
                  pz_version := some "B41", warnings := [], errors := [] },
      bounds := { min_x := 0, min_y := 0, max_x := 2, max_y := 2,
                  width := 2, height := 2,
                  maps := [{ x0 := 0, y0 := 0, w := 2, h := 2,
                             offset_x := 0, offset_y := 0 }] },
      levels := { highest_max := 1, zoom_out := 0, scale_factor := 1,
                  map_info := [{ max_level := 1, actual_level := 1,
                                 dzi := { width := 2, height := 2,
                                          tile_size := 300 } }] },
      canvas_w := 2, canvas_h := 2 } := by
  simp [stitch_multi_map_prepare, validate_map_compatibility, validateInfos,
    readInfos, read_map_info, mT2, exMiT, allEqHead, calculate_global_bounds,
    intMin, intMax, calculate_map_levels, readMaxLevels, get_max_level,
    build_pyramid, pyramidDown, Except.map]
  norm_num [pyTrunc]

theorem mT1_result : stitch_multi_map [mT1] 1 = .ok
    { canvas_w := 2, canvas_h := 2,
      placements :=
        [{ x := 0, y := 0, w := 2, h := 2, image := { w := 2, h := 2, tag := 1 } },
         { x := 0, y := 0, w := 2, h := 2, image := { w := 2, h := 2, tag := 2 } }] } := by
  rw [stitch_multi_map, stitch_multi_map_run, mT1_prepare]
  dsimp only
  norm_num [stitchMapsLoop, stitch_map_onto_canvas, load_tiles_for_level,
    parseTiles, mT1, tFileA, tFileB, read_map_info, exMiT, sort_tie_AB,
    compositeTile, is_within_canvas, pyRound, List.filterMap_cons,
    List.filterMap_nil, Option.map_some']

theorem mT2_result : stitch_multi_map [mT2] 1 = .ok
    { canvas_w := 2, canvas_h := 2,
      placements :=
        [{ x := 0, y := 0, w := 2, h := 2, image := { w := 2, h := 2, tag := 2 } },
         { x := 0, y := 0, w := 2, h := 2, image := { w := 2, h := 2, tag := 1 } }] } := by
  rw [stitch_multi_map, stitch_multi_map_run, mT2_prepare]
  dsimp only
  norm_num [stitchMapsLoop, stitch_map_onto_canvas, load_tiles_for_level,
    parseTiles, mT2, tFileA, tFileB, read_map_info, exMiT, sort_tie_BA,
    compositeTile, is_within_canvas, pyRound, List.filterMap_cons,
    List.filterMap_nil, Option.map_some']

/--
C8 counterexample: a level directory holding `0_0.webp` and `0_0.png`
(same tile coordinates, different pixel content).  The two enumeration
orders the filesystem may return are permutations of one another, yet
the stitched outputs differ: the stable `(y, x)` sort leaves the tied
entries in enumeration order, and the later composite overwrites the
earlier one.
-/
theorem stitchDeterminism_counterexample :
    List.Forall₂ sameUpToDirOrder [mT1] [mT2] ∧
    stitch_multi_map [mT1] 1 ≠ stitch_multi_map [mT2] 1 := by
  constructor
  · refine List.Forall₂.cons ⟨rfl, rfl, ?_⟩ List.Forall₂.nil
    intro L
    by_cases hL : L = 1
    · simp only [mT1, mT2, hL, if_pos rfl, dirPerm]
      exact List.Perm.swap tFileB tFileA []
    · simp only [mT1, mT2, if_neg hL, dirPerm]
  · rw [mT1_result, mT2_result]
    simp

/-- Directory entry `1_0.webp`: distinct coordinates from `tFileA`. -/
def tFileC : TileFile :=
  { coords := some (1, 0), image := { w := 2, h := 2, tag := 3 } }

/-- A 2×2 map whose level-1 directory holds two tiles with distinct
coordinates, enumerated `0_0` first. -/
def mU1 : MapSource :=
  { info := some exMiT,
    dzi := { width := 2, height := 2, tile_size := 300 },
    tiles := fun L => if L = 1 then some [tFileA, tFileC] else none }

/-- The same map with the opposite enumeration order. -/
def mU2 : MapSource :=
  { info := some exMiT,
    dzi := { width := 2, height := 2, tile_size := 300 },
    tiles := fun L => if L = 1 then some [tFileC, tFileA] else none }

/-- Closed instantiation of `stitchDeterminism_spec`: with distinct tile
coordinates, the two enumeration orders stitch identically. -/
theorem stitchDeterminism_spec_witness :
    stitch_multi_map_run [mU1] 1 = stitch_multi_map_run [mU2] 1 ∧
    stitch_multi_map [mU1] 1 = stitch_multi_map [mU2] 1 :=
  stitchDeterminism_spec [mU1] [mU2] 1
    (by
      refine List.Forall₂.cons ⟨rfl, rfl, ?_⟩ List.Forall₂.nil
      intro L
      by_cases hL : L = 1
      · simp only [mU1, mU2, hL, if_pos rfl, dirPerm]
        exact List.Perm.swap tFileC tFileA []
      · simp only [mU1, mU2, if_neg hL, dirPerm])
    (by
      intro m hm L
      have hm1 : m = mU1 := by simpa using hm
      subst hm1
      by_cases hL : L = 1
      · subst hL
        simp [mU1, coordsNodup, parseTiles, tFileA, tFileC]
        decide
      · simp [mU1, coordsNodup, hL])
